import Mathlib

/-!
# Gateway list service — eligibility and projection engine

Shallow embedding of `src/services/filter.ts` (class `FilterService`).

Modelling conventions:
* JS numbers are embedded as exact rationals (`ℚ`); the fee arithmetic of
  `calculateFee` is exact at every value the claims exercise.
* A JS value that may be `undefined`/`null` is an `Option`; the nullish
  chain `a ?? b` is `Option.orElse`-style, while `a || b` additionally
  treats `""`/`0` as absent (helpers `jsOrStr`, `jsOrNum` below).
* `Record<string, T>` is an association list with first-match lookup;
  the provider `Map` built by repeated `set` keeps the *last* entry for a
  duplicated key (`providerGet` folds left, as the loop does).
* The current wall-clock time `now.getHours()*60 + now.getMinutes()` is an
  explicit parameter `now : ℤ` (minutes since midnight).
* `Number(s)` on a time component follows the string ToNumber grammar:
  whitespace trim, empty → 0, optional sign with a decimal literal
  (integer, fraction, exponent), `Infinity` forms, and unsigned
  hex/octal/binary prefixes; anything else is NaN (`JsNumber.nan`), and
  comparisons have JS NaN/±∞ semantics. Double overflow and rounding are
  not modelled (values stay exact in `ℚ`).
* Top-level gateway fields outside the ones the service reads are carried
  in an opaque bag `extra` (key/value strings); keys of a raw `option`
  object other than `fee` are likewise carried in `OptionObj.extra`.
  The memoisation cache of fee tables is omitted: it is write-through and
  never observable in the result.
-/

namespace GatewayList

/-- JS `a || d` for an optional string: `undefined`/`null`/`""` fall through. -/
def jsOrStr (a : Option String) (d : String) : String :=
  match a with
  | some s => if s = "" then d else s
  | none => d

/-- JS `a || b` keeping the optional shape (used inside `||` chains). -/
def jsOrStrO (a b : Option String) : Option String :=
  match a with
  | some s => if s = "" then b else some s
  | none => b

/-- JS `a || d` for an optional number: `undefined`/`null`/`0` fall through. -/
def jsOrNum (a : Option ℚ) (d : ℚ) : ℚ :=
  match a with
  | some q => if q = 0 then d else q
  | none => d

/-- JS truthiness test for an optional string (`!s` is true iff this is). -/
def strFalsy (a : Option String) : Bool :=
  match a with
  | some s => s = ""
  | none => true

/-- JS `a ?? b` on optional values: only `undefined`/`null` fall through. -/
def orNullish (a b : Option α) : Option α :=
  match a with
  | some x => some x
  | none => b

/-- Strip leading and trailing whitespace from a character list
(structural implementation). -/
def trimWs (cs : List Char) : List Char :=
  ((cs.dropWhile Char.isWhitespace).reverse.dropWhile
      Char.isWhitespace).reverse

/-- `s.trim()`: strip leading and trailing whitespace. -/
def jsTrim (s : String) : String :=
  ⟨trimWs s.data⟩

/-- `s.split(':')` over the character list (single-character separator). -/
def splitOnColon : List Char → List (List Char)
  | [] => [[]]
  | c :: rest =>
    if c = ':' then [] :: splitOnColon rest
    else
      match splitOnColon rest with
      | [] => [[c]]
      | h :: t => (c :: h) :: t

/-- The result of JS `Number(string)` (ToNumber): NaN, a signed infinity,
or a finite value (exact — double overflow/precision are not modelled). -/
inductive JsNumber where
  | nan
  | inf (neg : Bool)
  | val (q : ℚ)
deriving DecidableEq, Repr

/-- Decimal value of an all-digit character list. -/
def digitsVal (cs : List Char) : ℕ :=
  cs.foldl (fun n c => n * 10 + (c.toNat - 48)) 0

/-- Hexadecimal digit test. -/
def isHexDigitCh (c : Char) : Bool :=
  c.isDigit || ('a' ≤ c && c ≤ 'f') || ('A' ≤ c && c ≤ 'F')

/-- Hexadecimal digit value. -/
def hexDigitVal (c : Char) : ℕ :=
  if c.isDigit then c.toNat - 48
  else if 'a' ≤ c && c ≤ 'f' then c.toNat - 87
  else c.toNat - 55

/-- Digits of a non-decimal radix literal (`0x…`/`0o…`/`0b…`): at least
one digit, all of them valid for the radix. -/
def radixDigits (cs : List Char) (isD : Char → Bool) (dv : Char → ℕ)
    (radix : ℕ) : Option ℚ :=
  if cs ≠ [] ∧ cs.all isD then
    some ((cs.foldl (fun n c => n * radix + dv c) 0 : ℕ) : ℚ)
  else none

/-- An unsigned decimal literal of the ToNumber grammar:
`digits [. digits] [ (e|E) [+|-] digits ]` or `. digits [exponent]`;
anything else is NaN (`none`). -/
def parseDec (cs : List Char) : Option ℚ :=
  let intPart := cs.takeWhile Char.isDigit
  let rest1 := cs.dropWhile Char.isDigit
  let fracPart :=
    match rest1 with
    | '.' :: r => r.takeWhile Char.isDigit
    | _ => []
  let rest2 :=
    match rest1 with
    | '.' :: r => r.dropWhile Char.isDigit
    | _ => rest1
  if intPart.isEmpty ∧ fracPart.isEmpty then none
  else
    let mant : ℚ :=
      (digitsVal intPart : ℚ) + (digitsVal fracPart : ℚ) / (10 ^ fracPart.length : ℚ)
    match rest2 with
    | [] => some mant
    | e :: r =>
      if e = 'e' ∨ e = 'E' then
        let expNeg := match r with | '-' :: _ => true | _ => false
        let r2 := match r with | '+' :: t => t | '-' :: t => t | _ => r
        if r2 ≠ [] ∧ r2.all Char.isDigit then
          if expNeg then some (mant / (10 : ℚ) ^ digitsVal r2)
          else some (mant * (10 : ℚ) ^ digitsVal r2)
        else none
      else none

/-- An unsigned ToNumber literal: hex/octal/binary prefix forms, otherwise
a decimal literal. -/
def parseUnsigned (cs : List Char) : Option ℚ :=
  match cs with
  | '0' :: x :: rest =>
    if x = 'x' ∨ x = 'X' then radixDigits rest isHexDigitCh hexDigitVal 16
    else if x = 'o' ∨ x = 'O' then
      radixDigits rest (fun c => '0' ≤ c && c ≤ '7') (fun c => c.toNat - 48) 8
    else if x = 'b' ∨ x = 'B' then
      radixDigits rest (fun c => c = '0' || c = '1') (fun c => c.toNat - 48) 2
    else parseDec cs
  | _ => parseDec cs

/-- JS `Number(string)` (string ToNumber): trim whitespace; empty → 0;
`Infinity` forms; an optional sign followed by a decimal literal (the sign
does not combine with hex/octal/binary); anything else NaN. -/
def jsToNumber (s : String) : JsNumber :=
  let t := trimWs s.data
  match t with
  | [] => .val 0
  | _ =>
    if t = "Infinity".data ∨ t = "+Infinity".data then .inf false
    else if t = "-Infinity".data then .inf true
    else
      match t with
      | '+' :: r =>
        match parseDec r with
        | some q => .val q
        | none => .nan
      | '-' :: r =>
        match parseDec r with
        | some q => .val (-q)
        | none => .nan
      | _ =>
        match parseUnsigned t with
        | some q => .val q
        | none => .nan

/-- `h * 60 + m` on ToNumber results: NaN propagates, an infinity scaled
by 60 keeps its sign, opposite infinities cancel to NaN. -/
def jsMul60Add (a b : JsNumber) : JsNumber :=
  match a, b with
  | .nan, _ => .nan
  | _, .nan => .nan
  | .inf n, .inf m => if n = m then .inf n else .nan
  | .inf n, .val _ => .inf n
  | .val _, .inf m => .inf m
  | .val x, .val y => .val (x * 60 + y)

/-- `const [h, m] = s.split(':').map(Number)` followed by `h * 60 + m`.
If the split yields a single component, `m` is `undefined` and the sum is
NaN. -/
def jsTimeToMinutes (s : String) : JsNumber :=
  match splitOnColon s.data with
  | [] => .nan
  | [_] => .nan
  | h :: m :: _ => jsMul60Add (jsToNumber ⟨h⟩) (jsToNumber ⟨m⟩)

/-- JS `now >= b` for an integer `now` and a ToNumber bound: false against
NaN and +∞, true against −∞. -/
def jsGeNum (now : ℤ) (b : JsNumber) : Bool :=
  match b with
  | .nan => false
  | .inf neg => neg
  | .val q => (now : ℚ) ≥ q

/-- JS `now <= b` for an integer `now` and a ToNumber bound: false against
NaN and −∞, true against +∞. -/
def jsLeNum (now : ℤ) (b : JsNumber) : Bool :=
  match b with
  | .nan => false
  | .inf neg => !neg
  | .val q => (now : ℚ) ≤ q

/-- `Math.round(q * 100) / 100`: round to 2 decimal places, ties toward +∞
exactly as JS `Math.round`. -/
def jsRound2 (q : ℚ) : ℚ :=
  ((⌊q * 100 + 1/2⌋ : ℤ) : ℚ) / 100

/-- A per-direction `{ min?, max? }` limit fragment. -/
structure DirLimit where
  min : Option ℚ := none
  max : Option ℚ := none
deriving DecidableEq, Repr

/-- `limit: { deposit?, withdraw? }`. -/
structure LimitCfg where
  deposit : Option DirLimit := none
  withdraw : Option DirLimit := none
deriving DecidableEq, Repr

/-- A per-direction `{ openingTime?, closingTime? }` fragment. -/
structure DirTime where
  openingTime : Option String := none
  closingTime : Option String := none
deriving DecidableEq, Repr

/-- `operateTime` / `serviceTime`: `{ deposit?, withdraw? }`. -/
structure OperateCfg where
  deposit : Option DirTime := none
  withdraw : Option DirTime := none
deriving DecidableEq, Repr

/-- `metaConfig` on a raw gateway. -/
structure MetaConfig where
  limit : Option LimitCfg := none
  operateTime : Option OperateCfg := none
  balanceLimit : Option ℚ := none
deriving DecidableEq, Repr

/-- `fee.value` in the legacy shape: a plain number or an object carrying
per-direction numbers. -/
inductive FeeValueField where
  | num (q : ℚ)
  | obj (deposit withdraw min : Option ℚ)
deriving DecidableEq, Repr

/-- A per-direction fee fragment `{ type?, value?, min? }`, both as raw
input and as the sanitized canonical triple (sanitization fills all three). -/
structure FeeConfig where
  type : Option String := none
  value : Option ℚ := none
  min : Option ℚ := none
deriving DecidableEq, Repr

/-- Raw `option.fee.settlement` with optional `normal` / `usdt` parts. -/
structure RawSettlement where
  normal : Option FeeConfig := none
  usdt : Option FeeConfig := none
deriving DecidableEq, Repr

/-- Raw `option.fee` object. -/
structure RawFee where
  type : Option String := none
  value : Option FeeValueField := none
  deposit : Option FeeConfig := none
  withdraw : Option FeeConfig := none
  settlement : Option RawSettlement := none
deriving DecidableEq, Repr

/-- Sanitized settlement fees. -/
structure SanitizedSettlement where
  normal : Option FeeConfig := none
  usdt : Option FeeConfig := none
deriving DecidableEq, Repr

/-- Output of `sanitizeFeeStructure`. -/
structure SanitizedFee where
  deposit : Option FeeConfig := none
  withdraw : Option FeeConfig := none
  settlement : Option SanitizedSettlement := none
deriving DecidableEq, Repr

/-- A raw `option` object: the `fee` key plus every other key it carries,
the latter opaque `key ↦ value` pairs. -/
structure OptionObj where
  fee : Option RawFee := none
  extra : List (String × String) := []
deriving DecidableEq, Repr

/-- The JS `status` value on a raw gateway: boolean, string, or absent. -/
inductive StatusVal where
  | bool (b : Bool)
  | str (s : String)
  | absent
deriving DecidableEq, Repr

/-- `ProviderConfig` from `manager-api.ts`: tri-state activity flags plus
default limits, operating times and fee option. -/
structure ProviderConfig where
  provider : String
  isActive : Option Bool := none
  isDisabled : Option Bool := none
  limit : Option LimitCfg := none
  operateTime : Option OperateCfg := none
  option : Option OptionObj := none
deriving DecidableEq, Repr

/-- A raw gateway as received in the batch snapshot. Fields the service
reads are explicit (optional, since the input is untyped runtime data);
every other top-level field lives in `extra`. -/
structure Gateway where
  gatewayId : Option String := none
  provider : Option String := none
  name : Option String := none
  site : Option String := none
  status : StatusVal := .absent
  groupId : Option String := none
  paymentMethods : Option (List String) := none
  metaConfig : Option MetaConfig := none
  min : Option ℚ := none
  max : Option ℚ := none
  limit : Option LimitCfg := none
  balanceLimit : Option ℚ := none
  type : Option String := none
  isInGroup : Option Bool := none
  group : Option (String × String) := none
  description : Option String := none
  currentBalance : Option ℚ := none
  totalBalance : Option ℚ := none
  serviceTime : Option OperateCfg := none
  option : Option OptionObj := none
  extra : List (String × String) := []
deriving DecidableEq, Repr

/-- `BatchDataResponse`: the snapshot consumed by `evaluateFilters`. -/
structure BatchDataResponse where
  gateways : List Gateway := []
  balances : List (String × ℚ) := []
  errors : List (String × ℚ) := []
  providers : List ProviderConfig := []
deriving DecidableEq, Repr

/-- First-match lookup in a JS record. -/
def lookupRec (m : List (String × ℚ)) (k : String) : Option ℚ :=
  (m.find? (fun kv => kv.1 = k)).map (fun kv => kv.2)

/-- The provider `Map` built by `for (const p of providers) map.set(...)`:
a later entry for the same key overwrites an earlier one. -/
def providerGet (ps : List ProviderConfig) (k : String) : Option ProviderConfig :=
  ps.foldl (fun acc p => if p.provider = k then some p else acc) none

/-- `providerMap.get(gateway.provider)` (an absent provider field finds
nothing). -/
def providerOf (ps : List ProviderConfig) (gw : Gateway) : Option ProviderConfig :=
  gw.provider.bind (providerGet ps)

/-- Filter 1 (`checkStatus`): `gateway.status === true`. -/
def checkStatus (gw : Gateway) : Bool :=
  gw.status = .bool true

/-- The `??` chain resolving the effective deposit opening time in
`checkTimeRange`: `gateway.metaConfig?.operateTime?.deposit?.openingTime ??
gateway.serviceTime?.deposit?.openingTime ??
provider?.operateTime?.deposit?.openingTime`. -/
def resolvedOpening (gw : Gateway) (provider : Option ProviderConfig) : Option String :=
  orNullish (((gw.metaConfig.bind (fun m => m.operateTime)).bind
      (fun o => o.deposit)).bind (fun d => d.openingTime))
    (orNullish ((gw.serviceTime.bind (fun o => o.deposit)).bind
        (fun d => d.openingTime))
      (((provider.bind (fun p => p.operateTime)).bind
          (fun o => o.deposit)).bind (fun d => d.openingTime)))

/-- The matching `??` chain for the effective deposit closing time. -/
def resolvedClosing (gw : Gateway) (provider : Option ProviderConfig) : Option String :=
  orNullish (((gw.metaConfig.bind (fun m => m.operateTime)).bind
      (fun o => o.deposit)).bind (fun d => d.closingTime))
    (orNullish ((gw.serviceTime.bind (fun o => o.deposit)).bind
        (fun d => d.closingTime))
      (((provider.bind (fun p => p.operateTime)).bind
          (fun o => o.deposit)).bind (fun d => d.closingTime)))

/-- Filter 2 (`checkTimeRange`): pass when no deposit window resolves (or a
resolved endpoint is the empty string, which is JS-falsy); otherwise require
`startTime <= now <= endTime` with JS comparison semantics: a bound that
parses to NaN makes its comparison false. -/
def checkTimeRange (gw : Gateway) (ps : List ProviderConfig) (now : ℤ) : Bool :=
  let provider := providerOf ps gw
  let openingTime := resolvedOpening gw provider
  let closingTime := resolvedClosing gw provider
  if strFalsy openingTime || strFalsy closingTime then
    true
  else
    let startTime := jsTimeToMinutes (openingTime.getD "")
    let endTime := jsTimeToMinutes (closingTime.getD "")
    jsGeNum now startTime && jsLeNum now endTime

/-- Filter 3 (`checkProvider`): the gateway must name a non-blank provider,
that provider must be present in the provider map, and the entry must have
`isActive` truthy and `isDisabled` falsy (`!provider.isActive ||
provider.isDisabled` rejects). -/
def checkProvider (gw : Gateway) (ps : List ProviderConfig) : Bool :=
  if strFalsy gw.provider then false
  else if ((jsTrim (gw.provider.getD "")).length = 0) then false
  else
    match providerOf ps gw with
    | none => false
    | some provider =>
      if provider.isActive ≠ some true || provider.isDisabled = some true then false
      else true

/-- The hardcoded error limit of `FilterService` (not configurable). -/
def ERROR_LIMIT : ℚ := 5

/-- Filter 4 (`checkErrorLimit`): `errors[gateway.provider] || 0` must be
strictly below `ERROR_LIMIT`. -/
def checkErrorLimit (gw : Gateway) (errors : List (String × ℚ)) : Bool :=
  let errorCount := jsOrNum (gw.provider.bind (lookupRec errors)) 0
  errorCount < ERROR_LIMIT

/-- Filter 5 (`checkBalanceLimit`): dead code in the current pipeline —
`applyAllFilters` no longer calls it; kept for completeness. -/
def checkBalanceLimit (gw : Gateway) (balances : List (String × ℚ))
    (ps : List ProviderConfig) : Bool :=
  let balance := jsOrNum (gw.gatewayId.bind (lookupRec balances)) 0
  let provider := providerOf ps gw
  let minLimit :=
    (orNullish ((gw.metaConfig.bind (fun m => m.limit)).bind
        (fun l => l.deposit.bind (fun d => d.min)))
      (orNullish gw.min
        ((provider.bind (fun p => p.limit)).bind
          (fun l => l.deposit.bind (fun d => d.min))))).getD 0
  balance > minLimit

/-- `applyAllFilters`: the four active gates in order; the balance gate of
earlier generations is removed from the pipeline (`balances` is still a
parameter, as in the source, but unread). -/
def applyAllFilters (gw : Gateway) (balances : List (String × ℚ))
    (errors : List (String × ℚ)) (ps : List ProviderConfig) (now : ℤ) : Bool :=
  if !checkStatus gw then false
  else if !checkTimeRange gw ps now then false
  else if !checkProvider gw ps then false
  else if !checkErrorLimit gw errors then false
  else true

/-- `calculateFee`: fixed fees return the configured value (`value || 0`);
percentage fees round `amount * value / 100` to 2 decimals and floor the
result at `min || 0`; any other type yields 0. -/
def calculateFee (amount : ℚ) (feeConfig : Option FeeConfig) : ℚ :=
  match feeConfig with
  | none => 0
  | some c =>
    if c.type = some "fixed" then
      jsOrNum c.value 0
    else if c.type = some "percentage" || c.type = some "percent" then
      max (jsRound2 (amount * jsOrNum c.value 0 / 100)) (jsOrNum c.min 0)
    else 0

/-- Sanitize one `{type, value, min}` fragment as `sanitizeFeeStructure`
does for a present per-direction object. -/
def sanitizeDirFee (c : FeeConfig) : FeeConfig :=
  { type := some (jsOrStr c.type "fixed")
    value := some (jsOrNum c.value 0)
    min := some (jsOrNum c.min 0) }

/-- `sanitizeFeeStructure`: normalize each direction to a canonical
`{type, value, min}` triple, with the legacy `fee.value` object carrying
per-direction scalars as fallback, and optional settlement sub-fees. -/
def sanitizeFeeStructure (fee : Option RawFee) : SanitizedFee :=
  match fee with
  | none => {}
  | some f =>
    let legacyValue : Option (Option ℚ × Option ℚ × Option ℚ) :=
      match f.value with
      | some (.obj d w m) => some (d, w, m)
      | _ => none
    let legacyType := jsOrStr f.type "fixed"
    let deposit : Option FeeConfig :=
      match f.deposit with
      | some d => some (sanitizeDirFee d)
      | none =>
        match legacyValue with
        | some (some dv, _, m) =>
          some { type := some legacyType, value := some dv, min := some (jsOrNum m 0) }
        | _ => none
    let withdraw : Option FeeConfig :=
      match f.withdraw with
      | some w => some (sanitizeDirFee w)
      | none =>
        match legacyValue with
        | some (_, some wv, m) =>
          some { type := some legacyType, value := some wv, min := some (jsOrNum m 0) }
        | _ => none
    let settlement : Option SanitizedSettlement :=
      match f.settlement with
      | none => none
      | some s =>
        some { normal := s.normal.map sanitizeDirFee
               usdt := s.usdt.map sanitizeDirFee }
    { deposit := deposit, withdraw := withdraw, settlement := settlement }

/-- The fixed amount grid 50, 100, …, 1000 of the fee estimation table. -/
def feeAmounts : List ℕ :=
  (List.range 20).map (fun i => 50 * (i + 1))

/-- `generateFeeEstimationTable` (memoisation cache elided: it only stores
and replays this pure computation): entry per amount, carrying the
withdraw and deposit fees in the order the source builds them. -/
def generateFeeEstimationTable (feeStructure : SanitizedFee) :
    List (ℕ × ℚ × ℚ) :=
  feeAmounts.map (fun amount =>
    (amount, calculateFee amount feeStructure.withdraw,
      calculateFee amount feeStructure.deposit))

/-- The sanitized `option` object returned by `buildOption`: possibly a
sanitized fee plus estimation table, and every other key of the chosen raw
option object, passed through untouched. -/
structure OptionOut where
  fee : Option SanitizedFee := none
  feeEstimationTable : Option (List (ℕ × ℚ × ℚ)) := none
  extra : List (String × String) := []
deriving DecidableEq, Repr

/-- `buildOption`: `option = providerOption ?? gatewayOption ?? {}`; when
`option.fee` is absent the option is returned as-is, otherwise the spread
`{...option, fee, feeEstimationTable}` keeps every other key and replaces
the fee data. -/
def buildOption (providerOption gatewayOption : Option OptionObj) : OptionOut :=
  let option := (orNullish providerOption gatewayOption).getD {}
  match option.fee with
  | none => { fee := none, feeEstimationTable := none, extra := option.extra }
  | some rawFee =>
    let sanitizedFee := sanitizeFeeStructure (some rawFee)
    { fee := some sanitizedFee
      feeEstimationTable := some (generateFeeEstimationTable sanitizedFee)
      extra := option.extra }

/-- A fully-resolved per-direction limit in the response. -/
structure DirLimitOut where
  min : ℚ
  max : ℚ
deriving DecidableEq, Repr

/-- The resolved `limit` object of the response. -/
structure LimitOut where
  deposit : DirLimitOut
  withdraw : DirLimitOut
deriving DecidableEq, Repr

/-- A fully-resolved per-direction service-time window in the response. -/
structure DirTimeOut where
  openingTime : String
  closingTime : String
deriving DecidableEq, Repr

/-- The resolved `serviceTime` object of the response. -/
structure ServiceTimeOut where
  deposit : DirTimeOut
  withdraw : DirTimeOut
deriving DecidableEq, Repr

/-- `FilteredGateway`: the whitelisted response shape built by
`mapToResponse`. -/
structure FilteredGateway where
  gatewayId : Option String
  provider : Option String
  name : Option String
  site : Option String
  status : StatusVal
  paymentMethods : Option (List String)
  min : ℚ
  max : ℚ
  limit : LimitOut
  balanceLimit : Option ℚ
  type : String
  isGroup : Bool
  isInGroup : Bool
  group : Option (String × String)
  description : String
  currentBalance : ℚ
  totalBalance : ℚ
  serviceTime : ServiceTimeOut
  option : OptionOut
deriving DecidableEq, Repr

/-- The limit-resolution chain of `mapToResponse`:
`gateway.metaConfig?.limit?.D?.B ?? gateway.limit?.D?.B ??
provider?.limit?.D?.B ?? fallback`, one definition per direction and
bound. -/
def depositMinOf (gw : Gateway) (provider : Option ProviderConfig) : ℚ :=
  (orNullish ((gw.metaConfig.bind (fun m => m.limit)).bind
      (fun l => l.deposit.bind (fun d => d.min)))
    (orNullish (gw.limit.bind (fun l => l.deposit.bind (fun d => d.min)))
      ((provider.bind (fun p => p.limit)).bind
        (fun l => l.deposit.bind (fun d => d.min))))).getD 100

/-- Deposit maximum chain with hardcoded fallback 1,000,000. -/
def depositMaxOf (gw : Gateway) (provider : Option ProviderConfig) : ℚ :=
  (orNullish ((gw.metaConfig.bind (fun m => m.limit)).bind
      (fun l => l.deposit.bind (fun d => d.max)))
    (orNullish (gw.limit.bind (fun l => l.deposit.bind (fun d => d.max)))
      ((provider.bind (fun p => p.limit)).bind
        (fun l => l.deposit.bind (fun d => d.max))))).getD 1000000

/-- Withdraw minimum chain with hardcoded fallback 100. -/
def withdrawMinOf (gw : Gateway) (provider : Option ProviderConfig) : ℚ :=
  (orNullish ((gw.metaConfig.bind (fun m => m.limit)).bind
      (fun l => l.withdraw.bind (fun d => d.min)))
    (orNullish (gw.limit.bind (fun l => l.withdraw.bind (fun d => d.min)))
      ((provider.bind (fun p => p.limit)).bind
        (fun l => l.withdraw.bind (fun d => d.min))))).getD 100

/-- Withdraw maximum chain with hardcoded fallback 1,000,000. -/
def withdrawMaxOf (gw : Gateway) (provider : Option ProviderConfig) : ℚ :=
  (orNullish ((gw.metaConfig.bind (fun m => m.limit)).bind
      (fun l => l.withdraw.bind (fun d => d.max)))
    (orNullish (gw.limit.bind (fun l => l.withdraw.bind (fun d => d.max)))
      ((provider.bind (fun p => p.limit)).bind
        (fun l => l.withdraw.bind (fun d => d.max))))).getD 1000000

/-- The merged deposit service-time window of `mapToResponse`: `||` chains
(empty string falls through) with defaults `00:00` / `23:59`. -/
def mergedDepositTime (gw : Gateway) (provider : Option ProviderConfig) : DirTimeOut :=
  { openingTime :=
      jsOrStr (jsOrStrO (((gw.metaConfig.bind (fun m => m.operateTime)).bind
          (fun o => o.deposit)).bind (fun d => d.openingTime))
        (jsOrStrO ((gw.serviceTime.bind (fun o => o.deposit)).bind
            (fun d => d.openingTime))
          (((provider.bind (fun p => p.operateTime)).bind
              (fun o => o.deposit)).bind (fun d => d.openingTime)))) "00:00"
    closingTime :=
      jsOrStr (jsOrStrO (((gw.metaConfig.bind (fun m => m.operateTime)).bind
          (fun o => o.deposit)).bind (fun d => d.closingTime))
        (jsOrStrO ((gw.serviceTime.bind (fun o => o.deposit)).bind
            (fun d => d.closingTime))
          (((provider.bind (fun p => p.operateTime)).bind
              (fun o => o.deposit)).bind (fun d => d.closingTime)))) "23:59" }

/-- The merged withdraw service-time window of `mapToResponse`. -/
def mergedWithdrawTime (gw : Gateway) (provider : Option ProviderConfig) : DirTimeOut :=
  { openingTime :=
      jsOrStr (jsOrStrO (((gw.metaConfig.bind (fun m => m.operateTime)).bind
          (fun o => o.withdraw)).bind (fun d => d.openingTime))
        (jsOrStrO ((gw.serviceTime.bind (fun o => o.withdraw)).bind
            (fun d => d.openingTime))
          (((provider.bind (fun p => p.operateTime)).bind
              (fun o => o.withdraw)).bind (fun d => d.openingTime)))) "00:00"
    closingTime :=
      jsOrStr (jsOrStrO (((gw.metaConfig.bind (fun m => m.operateTime)).bind
          (fun o => o.withdraw)).bind (fun d => d.closingTime))
        (jsOrStrO ((gw.serviceTime.bind (fun o => o.withdraw)).bind
            (fun d => d.closingTime))
          (((provider.bind (fun p => p.operateTime)).bind
              (fun o => o.withdraw)).bind (fun d => d.closingTime)))) "23:59" }

/-- The `${gateway.provider}` template fragment of the generated
description (an absent field renders as the string `undefined` in JS). -/
def descProviderOf (gw : Gateway) : String :=
  match gw.provider with
  | some s => s
  | none => "undefined"

/-- `mapToResponse`: project an eligible gateway to the response shape,
merging limits, service times, group fields, balances and the option. -/
def mapToResponse (gw : Gateway) (balances : List (String × ℚ))
    (ps : List ProviderConfig) : FilteredGateway :=
  let provider : Option ProviderConfig := providerOf ps gw
  let isGroup : Bool := !strFalsy gw.groupId
  { gatewayId := gw.gatewayId
    provider := gw.provider
    name := gw.name
    site := gw.site
    status := gw.status
    paymentMethods := gw.paymentMethods
    min := depositMinOf gw provider
    max := depositMaxOf gw provider
    limit :=
      { deposit := { min := depositMinOf gw provider, max := depositMaxOf gw provider }
        withdraw := { min := withdrawMinOf gw provider, max := withdrawMaxOf gw provider } }
    balanceLimit :=
      orNullish (gw.metaConfig.bind (fun m => m.balanceLimit)) gw.balanceLimit
    type := gw.type.getD (if isGroup then "group" else "individual")
    isGroup := isGroup
    isInGroup := gw.isInGroup.getD isGroup
    group :=
      if isGroup then gw.groupId.map (fun gid => (gid, gid)) else gw.group
    description :=
      jsOrStr gw.description
        (if isGroup then "Group " ++ descProviderOf gw ++ " gateway"
         else "Individual " ++ descProviderOf gw ++ " gateway")
    currentBalance :=
      (orNullish (gw.gatewayId.bind (lookupRec balances)) gw.currentBalance).getD 0
    totalBalance :=
      (orNullish (gw.gatewayId.bind (lookupRec balances)) gw.totalBalance).getD 0
    serviceTime :=
      { deposit := mergedDepositTime gw provider
        withdraw := mergedWithdrawTime gw provider }
    option := buildOption (provider.bind (fun p => p.option)) gw.option }

/-- `evaluateFilters`: filter the gateways through the four gates and map
the survivors to the response shape (the per-gateway logs are elided; the
provider map is inlined as `providerGet`, which matches the loop of
`Map.set` calls). `now` is the current time in minutes since midnight. -/
def evaluateFilters (batchData : BatchDataResponse) (now : ℤ) :
    List FilteredGateway :=
  (batchData.gateways.filter
      (fun gw => applyAllFilters gw batchData.balances batchData.errors
        batchData.providers now)).map
    (fun gw => mapToResponse gw batchData.balances batchData.providers)

/-- The top-level keys of every object `mapToResponse` returns: the field
whitelist, fixed by the object literal in the source. -/
def outputTopLevelKeys : List String :=
  ["gatewayId", "provider", "name", "site", "status", "paymentMethods",
   "min", "max", "limit", "balanceLimit", "type", "isGroup", "isInGroup",
   "group", "description", "currentBalance", "totalBalance", "serviceTime",
   "option"]

/-- The keys of a sanitized option object: its passed-through keys plus
`fee` / `feeEstimationTable` when present. -/
def optionOutKeys (o : OptionOut) : List String :=
  o.extra.map (fun kv => kv.1) ++
    (if o.fee.isSome then ["fee"] else []) ++
    (if o.feeEstimationTable.isSome then ["feeEstimationTable"] else [])

/-- Every key reachable in a response record: its top-level keys plus the
keys inside its `option` object. -/
def FilteredGateway.allKeys (fg : FilteredGateway) : List String :=
  outputTopLevelKeys ++ optionOutKeys fg.option

/-- The raw option object `buildOption` starts from:
`providerOption ?? gatewayOption ?? {}`. -/
def chosenOption (gw : Gateway) (ps : List ProviderConfig) : OptionObj :=
  (orNullish ((providerOf ps gw).bind (fun p => p.option)) gw.option).getD {}

/-- Modelled from the spec: the generic "first non-absent of" combinator of
the design notes, used to phrase the limit-precedence claim; compared
against the source's `??` chains. -/
def firstPresent : List (Option ℚ) → ℚ → ℚ
  | [], d => d
  | none :: rest, d => firstPresent rest d
  | some v :: _, _ => v

/-- C1 scenario: an active provider without an `option`, and a gateway whose
own `option` object carries a credential-named key. -/
def c1provider : ProviderConfig :=
  { provider := "p", isActive := some true, isDisabled := some false }

/-- C1 scenario gateway: passes every gate; carries a credential key both at
top level (`vaultPassword`) and inside its `option` (`secretKey`). -/
def c1gw : Gateway :=
  { gatewayId := some "g1", provider := some "p", name := some "G",
    site := some "s", status := .bool true,
    option := some { fee := none, extra := [("secretKey", "hunter2")] },
    extra := [("vaultPassword", "x")] }

/-- C1 scenario snapshot. -/
def c1batch : BatchDataResponse :=
  { gateways := [c1gw], providers := [c1provider] }

/-- C2 scenario: a provider entry present but with `isActive` and
`isDisabled` both `null` (a newly-provisioned provider). -/
def c2provider : ProviderConfig :=
  { provider := "chypay", isActive := none, isDisabled := none }

/-- C2 scenario gateway: every other gate passes. -/
def c2gw : Gateway :=
  { gatewayId := some "15ppb_chypay", provider := some "chypay",
    status := .bool true }

/-- C2 scenario snapshot. -/
def c2batch : BatchDataResponse :=
  { gateways := [c2gw], providers := [c2provider] }

/-- C3 scenario: a fully active provider and a gateway whose status is the
legacy string `active`. -/
def c3provider : ProviderConfig :=
  { provider := "provider-a", isActive := some true, isDisabled := some false }

/-- C3 scenario gateway with legacy string status. -/
def c3gw : Gateway :=
  { gatewayId := some "gw-001", provider := some "provider-a",
    status := .str "active" }

/-- C3 scenario snapshot. -/
def c3batch : BatchDataResponse :=
  { gateways := [c3gw], providers := [c3provider] }

/-- C6 witness provider. -/
def c6provider : ProviderConfig :=
  { provider := "p", isActive := some true, isDisabled := some false }

/-- C6 witness gateway. -/
def c6gw : Gateway :=
  { gatewayId := some "g", provider := some "p", status := .bool true }

/-- C7 counterexample gateway: its own balance fields are set while the
balances map has no entry for it. -/
def c7gw : Gateway :=
  { gatewayId := some "g7", provider := some "p", status := .bool true,
    currentBalance := some 42, totalBalance := some 7 }

/-- C7 counterexample snapshot: empty balances map. -/
def c7batch : BatchDataResponse :=
  { gateways := [c7gw], balances := [],
    providers := [{ provider := "p", isActive := some true,
                    isDisabled := some false }] }

/-- C7 witness gateway with a balances-map entry. -/
def c7mappedGw : Gateway :=
  { gatewayId := some "g7m", provider := some "p", status := .bool true,
    currentBalance := some 99, totalBalance := some 98 }

/-- C9 witness: a normalized percent fee of value 1.5 on the deposit
direction. -/
def c9fee : FeeConfig :=
  { type := some "percent", value := some (3/2), min := some 0 }

/-- C9 witness fee schedule. -/
def c9fs : SanitizedFee :=
  { deposit := some c9fee, withdraw := none }

/-- C10 witness gateway: its own balance fields disagree with the balances
map. -/
def c10gw : Gateway :=
  { gatewayId := some "g10", provider := some "p", status := .bool true,
    currentBalance := some 99, totalBalance := some 1 }

/-- C10 witness balances map. -/
def c10bs : List (String × ℚ) := [("g10", 7)]

/-- The four gates of `applyAllFilters` short-circuit: once the status,
time and provider gates pass, the verdict is exactly the error-limit
gate's. -/
lemma applyAllFilters_gates (gw : Gateway) (bal errors : List (String × ℚ))
    (ps : List ProviderConfig) (now : ℤ)
    (h1 : checkStatus gw = true) (h2 : checkTimeRange gw ps now = true)
    (h3 : checkProvider gw ps = true) :
    applyAllFilters gw bal errors ps now = checkErrorLimit gw errors := by
  cases hce : checkErrorLimit gw errors <;>
    simp [applyAllFilters, h1, h2, h3, hce]

/-- `buildOption` passes the keys of the chosen raw option object through
unchanged, whether or not a fee is attached. -/
lemma buildOption_extra (po go : Option OptionObj) :
    (buildOption po go).extra = ((orNullish po go).getD {}).extra := by
  unfold buildOption
  dsimp only []
  split <;> rfl

/-- The spec's "first non-absent of" combinator agrees with the source's
nested `??` chain on a three-step chain. -/
lemma firstPresent_eq (a b c : Option ℚ) (d : ℚ) :
    firstPresent [a, b, c] d = (orNullish a (orNullish b c)).getD d := by
  cases a <;> cases b <;> cases c <;> rfl

/-- `value || 0` on a present numeric field is the field itself. -/
lemma jsOrNum_some_zero (v : ℚ) : jsOrNum (some v) 0 = v := by
  by_cases h : v = 0 <;> simp [jsOrNum, h]

/-- Claim C1 (counterexample): the whitelist claim fails inside `option` —
a gateway whose raw `option` object carries the credential-named key
`secretKey` (and whose provider has no option of its own) produces an
output record that still contains `secretKey` inside its `option` object,
although `secretKey` is not a whitelisted key. -/
theorem c1_counterexample :
    (evaluateFilters c1batch 720).length = 1 ∧
    "secretKey" ∈ ((evaluateFilters c1batch 720).map FilteredGateway.allKeys).flatten ∧
    "secretKey" ∉ outputTopLevelKeys := by decide

/-- Claim C1 (amended): every top-level key of an output record is in the
fixed whitelist and the output is unchanged by arbitrary non-whitelisted
top-level fields of the raw gateway, so top-level credential/metadata
fields never leak; but every key of the chosen raw option object
(`provider.option ?? gateway.option`) flows through to the output record's
`option`, with only `fee`/`feeEstimationTable` added or replaced. -/
theorem c1_amended (gw : Gateway) (bs : List (String × ℚ)) (ps : List ProviderConfig)
    (e : List (String × String)) (k : String)
    (hk : k ∈ (mapToResponse gw bs ps).allKeys) :
    mapToResponse { gw with extra := e } bs ps = mapToResponse gw bs ps ∧
    (k ∈ outputTopLevelKeys ∨ k ∈ (chosenOption gw ps).extra.map Prod.fst ∨
      k = "fee" ∨ k = "feeEstimationTable") := by
  constructor
  · rfl
  · have hx : (mapToResponse gw bs ps).option.extra = (chosenOption gw ps).extra := by
      rw [show (mapToResponse gw bs ps).option =
          buildOption ((providerOf ps gw).bind (fun p => p.option)) gw.option from rfl,
        buildOption_extra]
      rfl
    unfold FilteredGateway.allKeys at hk
    rcases List.mem_append.1 hk with h | h
    · exact Or.inl h
    · unfold optionOutKeys at h
      rcases List.mem_append.1 h with h1 | h1
      · rcases List.mem_append.1 h1 with h2 | h2
        · rw [hx] at h2
          exact Or.inr (Or.inl h2)
        · refine Or.inr (Or.inr (Or.inl ?_))
          by_cases hf : (mapToResponse gw bs ps).option.fee.isSome
          · simpa [hf] using h2
          · simp [hf] at h2
      · refine Or.inr (Or.inr (Or.inr ?_))
        by_cases hf : (mapToResponse gw bs ps).option.feeEstimationTable.isSome
        · simpa [hf] using h1
        · simp [hf] at h1

/-- Claim C1 (witness): the amended theorem instantiated at the C1 scenario
and the key `gatewayId`. -/
theorem c1_amended_witness :
    mapToResponse { c1gw with extra := [("x", "y")] } [] [c1provider] =
      mapToResponse c1gw [] [c1provider] ∧
    ("gatewayId" ∈ outputTopLevelKeys ∨
      "gatewayId" ∈ (chosenOption c1gw [c1provider]).extra.map Prod.fst ∨
      "gatewayId" = "fee" ∨ "gatewayId" = "feeEstimationTable") :=
  c1_amended c1gw [] [c1provider] [("x", "y")] "gatewayId" (by decide)

/-- Claim C2 (code evaluation at the failing input): a gateway whose
provider entry is present with `isActive = null` and `isDisabled = null`
passes the status, time and error gates but is rejected by the provider
gate, so the snapshot evaluates to the empty list — the code requires
`isActive` to be explicitly truthy, against the claim and the repo's own
test scripts. -/
theorem c2_provider_null_flags_excluded :
    checkStatus c2gw = true ∧
    checkTimeRange c2gw c2batch.providers 720 = true ∧
    checkErrorLimit c2gw c2batch.errors = true ∧
    checkProvider c2gw c2batch.providers = false ∧
    evaluateFilters c2batch 720 = [] := by decide

/-- Claim C3 (code evaluation at the failing input): a gateway whose status
is the legacy string `active` passes the provider, time and error gates but
is rejected by the status gate — the code accepts only the boolean `true`,
against the claim and the repo's own unit tests. -/
theorem c3_string_status_excluded :
    checkProvider c3gw c3batch.providers = true ∧
    checkTimeRange c3gw c3batch.providers 720 = true ∧
    checkErrorLimit c3gw c3batch.errors = true ∧
    checkStatus c3gw = false ∧
    evaluateFilters c3batch 720 = [] := by decide

/-- Claim C4: for every snapshot the output of `evaluateFilters` is at most
as long as the input gateway sequence and is precisely the projection of a
stable sub-sequence of it (the filtered sub-list, in input order, mapped
through `mapToResponse` — no resorting). -/
theorem c4_stable_projection (batch : BatchDataResponse) (now : ℤ) :
    (evaluateFilters batch now).length ≤ batch.gateways.length ∧
    List.Sublist
      (batch.gateways.filter
        (fun gw => applyAllFilters gw batch.balances batch.errors batch.providers now))
      batch.gateways ∧
    evaluateFilters batch now =
      (batch.gateways.filter
        (fun gw => applyAllFilters gw batch.balances batch.errors batch.providers now)).map
        (fun gw => mapToResponse gw batch.balances batch.providers) := by
  refine ⟨?_, List.filter_sublist _, rfl⟩
  simpa [evaluateFilters] using
    List.length_filter_le
      (fun gw => applyAllFilters gw batch.balances batch.errors batch.providers now)
      batch.gateways

/-- Claim C6: with the status, time and provider gates passing, a gateway
is included iff `errorCounts[provider] || 0` is strictly below the fixed
`ERROR_LIMIT` of 5 (not a parameter of the call); an absent error entry
counts as 0 and a count of exactly 4 never excludes. -/
theorem c6_error_gate (gw : Gateway) (bal errors : List (String × ℚ))
    (ps : List ProviderConfig) (now : ℤ)
    (h1 : checkStatus gw = true) (h2 : checkTimeRange gw ps now = true)
    (h3 : checkProvider gw ps = true) :
    (applyAllFilters gw bal errors ps now = true ↔
      jsOrNum (gw.provider.bind (lookupRec errors)) 0 < ERROR_LIMIT) ∧
    ERROR_LIMIT = 5 ∧
    (gw.provider.bind (lookupRec errors) = none →
      applyAllFilters gw bal errors ps now = true) ∧
    (jsOrNum (gw.provider.bind (lookupRec errors)) 0 = 4 →
      applyAllFilters gw bal errors ps now = true) := by
  have hall := applyAllFilters_gates gw bal errors ps now h1 h2 h3
  refine ⟨?_, rfl, ?_, ?_⟩
  · rw [hall]
    simp [checkErrorLimit]
  · intro h0
    rw [hall]
    simp [checkErrorLimit, h0, jsOrNum, ERROR_LIMIT]
  · intro h4
    rw [hall]
    simp [checkErrorLimit, h4]
    norm_num [ERROR_LIMIT]

/-- Claim C6 (witness): the error gate instantiated at a concrete gateway
with an error count of exactly 4, which is included. -/
theorem c6_error_gate_witness :
    applyAllFilters c6gw [] [("p", (4 : ℚ))] [c6provider] 720 = true := by
  exact (c6_error_gate c6gw [] [("p", (4 : ℚ))] [c6provider] 720
    (by decide) (by decide) (by decide)).2.2.2 (by decide)

/-- Claim C7 (counterexample): with no balances-map entry, the output
record's balances are NOT 0 — they fall back to the gateway's own
`currentBalance`/`totalBalance` fields (42 and 7 here), refuting the
claimed default of 0. -/
theorem c7_counterexample :
    (evaluateFilters c7batch 720).map
        (fun fg => (fg.currentBalance, fg.totalBalance)) = [(42, 7)] ∧
    c7batch.balances = [] ∧ (42 : ℚ) ≠ 0 := by decide

/-- Claim C7 (amended): the output balances equal the balances-map entry
for the gateway's id when one exists; when the map has no entry they fall
back to the gateway's own `currentBalance`/`totalBalance` field, and only
default to 0 when that too is absent. -/
theorem c7_amended (gw : Gateway) (bs : List (String × ℚ)) (ps : List ProviderConfig) :
    (∀ b, gw.gatewayId.bind (lookupRec bs) = some b →
      (mapToResponse gw bs ps).currentBalance = b ∧
      (mapToResponse gw bs ps).totalBalance = b) ∧
    (gw.gatewayId.bind (lookupRec bs) = none →
      (mapToResponse gw bs ps).currentBalance = gw.currentBalance.getD 0 ∧
      (mapToResponse gw bs ps).totalBalance = gw.totalBalance.getD 0) := by
  constructor
  · intro b hb
    constructor <;> simp [mapToResponse, hb, orNullish]
  · intro hn
    constructor <;> simp [mapToResponse, hn, orNullish]

/-- Claim C7 (witness): the amended theorem instantiated at the C7 gateway
against an empty balances map and against a map without its id. -/
theorem c7_amended_witness :
    (mapToResponse c7gw [] []).currentBalance = 42 ∧
    (mapToResponse c7gw [("g7x", 5)] []).currentBalance = 42 := by
  constructor
  · exact (((c7_amended c7gw [] []).2 rfl).1).trans (by decide)
  · exact (((c7_amended c7gw [("g7x", 5)] []).2 (by decide)).1).trans (by decide)

/-- Claim C8: each of the four output limit bounds equals the first present
value of its own chain `gateway.metaConfig.limit → gateway.limit →
provider.limit → hardcoded fallback` (100 for minima, 1,000,000 for
maxima), independently per direction and bound; the top-level `min`/`max`
fields are the deposit bounds. -/
theorem c8_limit_resolution (gw : Gateway) (bs : List (String × ℚ))
    (ps : List ProviderConfig) :
    (mapToResponse gw bs ps).limit.deposit.min =
      firstPresent
        [(gw.metaConfig.bind (fun m => m.limit)).bind (fun l => l.deposit.bind (fun d => d.min)),
         gw.limit.bind (fun l => l.deposit.bind (fun d => d.min)),
         ((providerOf ps gw).bind (fun p => p.limit)).bind
           (fun l => l.deposit.bind (fun d => d.min))] 100 ∧
    (mapToResponse gw bs ps).limit.deposit.max =
      firstPresent
        [(gw.metaConfig.bind (fun m => m.limit)).bind (fun l => l.deposit.bind (fun d => d.max)),
         gw.limit.bind (fun l => l.deposit.bind (fun d => d.max)),
         ((providerOf ps gw).bind (fun p => p.limit)).bind
           (fun l => l.deposit.bind (fun d => d.max))] 1000000 ∧
    (mapToResponse gw bs ps).limit.withdraw.min =
      firstPresent
        [(gw.metaConfig.bind (fun m => m.limit)).bind (fun l => l.withdraw.bind (fun d => d.min)),
         gw.limit.bind (fun l => l.withdraw.bind (fun d => d.min)),
         ((providerOf ps gw).bind (fun p => p.limit)).bind
           (fun l => l.withdraw.bind (fun d => d.min))] 100 ∧
    (mapToResponse gw bs ps).limit.withdraw.max =
      firstPresent
        [(gw.metaConfig.bind (fun m => m.limit)).bind (fun l => l.withdraw.bind (fun d => d.max)),
         gw.limit.bind (fun l => l.withdraw.bind (fun d => d.max)),
         ((providerOf ps gw).bind (fun p => p.limit)).bind
           (fun l => l.withdraw.bind (fun d => d.max))] 1000000 ∧
    (mapToResponse gw bs ps).min = (mapToResponse gw bs ps).limit.deposit.min ∧
    (mapToResponse gw bs ps).max = (mapToResponse gw bs ps).limit.deposit.max :=
  ⟨(firstPresent_eq _ _ _ _).symm, (firstPresent_eq _ _ _ _).symm,
   (firstPresent_eq _ _ _ _).symm, (firstPresent_eq _ _ _ _).symm, rfl, rfl⟩

/-- Claim C9: for every normalized per-direction fee config and every
amount of the fixed 50…1000 grid, the fee-estimation table carries exactly
`calculateFee`; a `fixed` fee is the configured value and a
`percent`/`percentage` fee is `amount * value / 100` rounded to 2 decimal
places and then floored at the configured minimum. -/
theorem c9_fee_table (fs : SanitizedFee) (c : FeeConfig) (v m : ℚ) (a : ℕ)
    (ha : a ∈ feeAmounts) (hdep : fs.deposit = some c)
    (hv : c.value = some v) (hm : c.min = some m) :
    ((a, calculateFee (a : ℚ) fs.withdraw, calculateFee (a : ℚ) fs.deposit) ∈
        generateFeeEstimationTable fs) ∧
    (c.type = some "fixed" → calculateFee (a : ℚ) fs.deposit = v) ∧
    ((c.type = some "percent" ∨ c.type = some "percentage") →
      calculateFee (a : ℚ) fs.deposit = max (jsRound2 ((a : ℚ) * v / 100)) m) := by
  refine ⟨List.mem_map_of_mem _ ha, ?_, ?_⟩
  · intro ht
    simp [calculateFee, hdep, ht, hv, jsOrNum_some_zero]
  · intro ht
    rcases ht with h | h <;>
      simp [calculateFee, hdep, h, hv, hm, jsOrNum_some_zero]

/-- Claim C9 (witness): a percent fee of value 1.5 yields 1.5 at amount 100
and 15 at amount 1000. -/
theorem c9_fee_table_witness :
    calculateFee ((100 : ℕ) : ℚ) c9fs.deposit = 3 / 2 ∧
    calculateFee ((1000 : ℕ) : ℚ) c9fs.deposit = 15 := by
  have h1 := (c9_fee_table c9fs c9fee (3 / 2) 0 100 (by decide) rfl rfl rfl).2.2
    (Or.inl rfl)
  have h2 := (c9_fee_table c9fs c9fee (3 / 2) 0 1000 (by decide) rfl rfl rfl).2.2
    (Or.inl rfl)
  constructor
  · rw [h1]
    simp only [jsRound2]
    norm_num
  · rw [h2]
    simp only [jsRound2]
    norm_num

/-- Claim C10: when the balances map has an entry for the gateway's id,
`currentBalance` and `totalBalance` both equal that entry, and the
gateway's own balance fields have no influence on the output record at
all. -/
theorem c10_balance_consistency (gw : Gateway) (bs : List (String × ℚ))
    (ps : List ProviderConfig) (b : ℚ)
    (h : gw.gatewayId.bind (lookupRec bs) = some b) :
    (mapToResponse gw bs ps).currentBalance = b ∧
    (mapToResponse gw bs ps).totalBalance = b ∧
    ∀ cb tb, mapToResponse { gw with currentBalance := cb, totalBalance := tb } bs ps =
      mapToResponse gw bs ps := by
  refine ⟨?_, ?_, ?_⟩
  · simp [mapToResponse, h, orNullish]
  · simp [mapToResponse, h, orNullish]
  · intro cb tb
    simp [mapToResponse, providerOf, depositMinOf, depositMaxOf,
      withdrawMinOf, withdrawMaxOf, mergedDepositTime, mergedWithdrawTime,
      descProviderOf, h, orNullish]

/-- Claim C10 (witness): the consistency theorem instantiated at a gateway
whose own balance fields (99 and 1) disagree with its balances-map entry
(7). -/
theorem c10_balance_consistency_witness :
    (mapToResponse c10gw c10bs []).currentBalance = 7 ∧
    (mapToResponse c10gw c10bs []).totalBalance = 7 := by
  have h := c10_balance_consistency c10gw c10bs [] 7 (by decide)
  exact ⟨h.1, h.2.1⟩

end GatewayList
